import Mathlib

/-!
Shallow embedding of the TIFF/NEF decoder of the clover repository
(package `cltools`, file `raw_to_compressed.go`, and package `utils`,
file `utils.go`), together with theorems settling the specification
claims about it.

Machine integers are modelled as `Nat` with explicit `% 2^w` at the
points where Go performs a fixed-width operation (`uint8` truncation,
`uint16`/`uint32` arithmetic).  A byte value is a `Nat`; every place the
Go code widens a `byte` into a larger integer the embedding inserts
`% 256`, which is the content of the `byte` type there.  An open file is
modelled by its size and its content function; Go's `Read`/`ReadAt`
calls in this code ignore their error results and leave the
zero-initialised buffer untouched past end of file, which the model
reproduces by returning byte `0` past `size`.
-/

namespace Clover

/-- Endianness selector, from `utils.EndianOrder` (`BigEndian = 0`,
`LittleEndian = 1`); only these two values are ever produced by the
program (`getEdianOrder` returns nothing else). -/
inductive EndianOrder where
  | BigEndian
  | LittleEndian
deriving DecidableEq

/-- Embedding of `utils.ConvertBytesToUInt16`: two bytes to an unsigned
16-bit value, high byte first for big-endian. -/
def ConvertBytesToUInt16 (byte1 byte2 : Nat) (endianOrder : EndianOrder) : Nat :=
  match endianOrder with
  | .BigEndian => ((byte1 % 256) <<< 8) ||| (byte2 % 256)
  | .LittleEndian => (byte1 % 256) ||| ((byte2 % 256) <<< 8)

/-- Embedding of `utils.ConvertBytesToUInt32`. -/
def ConvertBytesToUInt32 (byte1 byte2 byte3 byte4 : Nat) (endianOrder : EndianOrder) : Nat :=
  match endianOrder with
  | .BigEndian =>
      ((byte1 % 256) <<< 24) ||| ((byte2 % 256) <<< 16) ||| ((byte3 % 256) <<< 8) ||| (byte4 % 256)
  | .LittleEndian =>
      (byte1 % 256) ||| ((byte2 % 256) <<< 8) ||| ((byte3 % 256) <<< 16) ||| ((byte4 % 256) <<< 24)

/-- Embedding of `utils.ConvertBytesToUInt64`. -/
def ConvertBytesToUInt64
    (byte1 byte2 byte3 byte4 byte5 byte6 byte7 byte8 : Nat) (endianOrder : EndianOrder) : Nat :=
  match endianOrder with
  | .BigEndian =>
      ((byte1 % 256) <<< 56) ||| ((byte2 % 256) <<< 48) ||| ((byte3 % 256) <<< 40) |||
      ((byte4 % 256) <<< 32) ||| ((byte5 % 256) <<< 24) ||| ((byte6 % 256) <<< 16) |||
      ((byte7 % 256) <<< 8) ||| (byte8 % 256)
  | .LittleEndian =>
      (byte1 % 256) ||| ((byte2 % 256) <<< 8) ||| ((byte3 % 256) <<< 16) |||
      ((byte4 % 256) <<< 24) ||| ((byte5 % 256) <<< 32) ||| ((byte6 % 256) <<< 40) |||
      ((byte7 % 256) <<< 48) ||| ((byte8 % 256) <<< 56)

/-- Embedding of `utils.ConvertBytesSliceToUInt32`: fails unless the
slice has exactly four bytes. -/
def ConvertBytesSliceToUInt32 (btc : List Nat) (eo : EndianOrder) : Except String Nat :=
  if btc.length ≠ 4 then .error "Bytes slice incorrect length for conversion"
  else .ok (ConvertBytesToUInt32 (btc.getD 0 0) (btc.getD 1 0) (btc.getD 2 0) (btc.getD 3 0) eo)

theorem lor_left_comm (a b c : Nat) : a ||| (b ||| c) = b ||| (a ||| c) := by
  rw [← Nat.lor_assoc, Nat.lor_comm a b, Nat.lor_assoc]

/-- C10: decoding under one endianness equals decoding the reversed byte
sequence under the other endianness, for the 16-, 32- and 64-bit byte
converters. -/
theorem convertBytes_endian_reversal (b1 b2 b3 b4 b5 b6 b7 b8 : Nat) :
    ConvertBytesToUInt16 b1 b2 .BigEndian = ConvertBytesToUInt16 b2 b1 .LittleEndian ∧
    ConvertBytesToUInt32 b1 b2 b3 b4 .BigEndian
      = ConvertBytesToUInt32 b4 b3 b2 b1 .LittleEndian ∧
    ConvertBytesToUInt64 b1 b2 b3 b4 b5 b6 b7 b8 .BigEndian
      = ConvertBytesToUInt64 b8 b7 b6 b5 b4 b3 b2 b1 .LittleEndian := by
  refine ⟨?_, ?_, ?_⟩ <;>
    simp only [ConvertBytesToUInt16, ConvertBytesToUInt32, ConvertBytesToUInt64] <;>
    simp [Nat.lor_assoc, Nat.lor_comm, lor_left_comm]

/-- Model of an open `*os.File`: its size and the byte stored at each
position.  The decoder's `Read`/`ReadAt` calls ignore errors and leave
the zero-initialised buffer untouched past end of file. -/
structure goFile where
  size : Nat
  content : Nat → Nat

/-- Byte delivered by a read at position `i`: the stored byte (as an
8-bit value) inside the file, `0` past its end. -/
def readByte (f : goFile) (i : Nat) : Nat :=
  if i < f.size then f.content i % 256 else 0

/-- Model of reading `n` bytes at absolute offset `off` into a fresh
zero-initialised buffer. -/
def readBytes (f : goFile) (off n : Nat) : List Nat :=
  (List.range n).map (fun j => readByte f (off + j))

/-! Tag identifiers from the `cltools` constant block, restricted to the
tags `parseIFDBytes` and `parseGPSIFDBytes` dispatch on. -/

def subfileTypeTag : Nat := 0x00fe
def imageWidthTag : Nat := 0x0100
def imageHeightTag : Nat := 0x0101
def bitsPerSampleTag : Nat := 0x0102
def compressionTag : Nat := 0x0103
def photometricInterpretationTag : Nat := 0x0106
def makeTag : Nat := 0x010f
def modelTag : Nat := 0x0110
def stripOffsetsTag : Nat := 0x0111
def orientationTag : Nat := 0x0112
def samplesPerPixelTag : Nat := 0x0115
def rowsPerStripTag : Nat := 0x0116
def stripByteCountsTag : Nat := 0x0117
def xResolutionTag : Nat := 0x011a
def yResolutionTag : Nat := 0x011b
def planarConfigurationTag : Nat := 0x011c
def resolutionUnitTag : Nat := 0x0128
def softwareTag : Nat := 0x0131
def modifyDateTag : Nat := 0x0132
def artistTag : Nat := 0x013b
def subIFDA100DataOffsetTag : Nat := 0x014a
def jpegFromRawStartTag : Nat := 0x0201
def jpegFromRawLengthTag : Nat := 0x0202
def yCbCrPositioningTag : Nat := 0x0213
def referenceBlackWhiteTag : Nat := 0x0214
def imageFullWidthTag : Nat := 0x8214
def imageFullHeightTag : Nat := 0x8215
def exifOffsetTag : Nat := 0x8769
def gpsInfoTag : Nat := 0x8825
def dateTimeOriginalTag : Nat := 0x9003
def tiffEPStandardIDTag : Nat := 0x9216

/-- GPS tag `GPSVersionID = 0x0000` (the only GPS tag the decoder
handles). -/
def gpsVersionIDTag : Nat := 0x0000

/-! TIFF data-type identifiers from the same constant block. -/

def unsignedByteType : Nat := 1
def asciiStringsType : Nat := 2
def unsignedShortType : Nat := 3
def unsignedLongType : Nat := 4
def unsignedRationalType : Nat := 5

/-! `subfileType` values. -/

def subfileTypeReducedResolutionImage : Nat := 1
def subfileTypeSinglePageOfMultipageImage : Nat := 2
def subfileTypeTransparencyMaskImage : Nat := 3
def subfileTypeMRCImagingModel : Nat := 4

/-- Embedding of the `tiffHeader` struct. -/
structure tiffHeader where
  endianOrder : EndianOrder := .BigEndian
  magicNum : Nat := 0
  tiffOffset : Nat := 0
deriving DecidableEq

/-- Embedding of the `gpsIFD` struct, restricted to `GPSVersionID`, the
only field `parseGPSIFDBytes` ever assigns; the remaining Go fields keep
their zero values throughout the program. -/
structure gpsIFD where
  GPSVersionID : List Nat := []
deriving DecidableEq

/-- Embedding of the `tiffIFD` struct; defaults are Go's zero values. -/
structure tiffIFD where
  SubFileType : Nat := 0
  ImageWidth : Nat := 0
  ImageHeight : Nat := 0
  ImageFullWidth : Nat := 0
  ImageFullHeight : Nat := 0
  BitsPerSample : List Nat := []
  CompressionFlag : Nat := 0
  PhotometricInterpretationFlag : Nat := 0
  ImageMakeTag : List Nat := []
  ImageModelTag : List Nat := []
  StripOffsets : Nat := 0
  OrientationFlag : Nat := 0
  SamplesPerPixel : Nat := 0
  RowsPerStrip : Nat := 0
  StripByteCounts : Nat := 0
  XResolution : Nat := 0
  YResolution : Nat := 0
  PlanarConfiguration : Nat := 0
  ResolutionUnit : Nat := 0
  SoftwareTextData : List Nat := []
  DateTimeText : List Nat := []
  SubIFDOffsets : List Nat := []
  ReferenceBlackWhite : Nat := 0
  ExifOffset : Nat := 0
  GpsInfo : Nat := 0
  GpsIFD : Option gpsIFD := none
  DateTimeOriginalText : List Nat := []
  TiffEPStandardID : List Nat := []
  JpegFromRawStart : Nat := 0
  JpegFromRawLength : Nat := 0
  YCbCrPositioning : Nat := 0
  CFARepeatPatternDim : Nat := 0
  CFAPattern2 : Nat := 0
  SensingMethod : Nat := 0
deriving DecidableEq

instance : Inhabited tiffIFD := ⟨{}⟩

/-- Embedding of `getEdianOrder`: the first two header bytes are read
big-endian; `0x4d4d` selects big-endian, `0x4949` little-endian, and
anything else (or a short header) falls back to the big-endian default. -/
def getEdianOrder (header : List Nat) : EndianOrder :=
  if header.length ≥ 4 then
    let endianFlag := ConvertBytesToUInt16 (header.getD 0 0) (header.getD 1 0) .BigEndian
    if endianFlag = 0x4d4d then .BigEndian
    else if endianFlag = 0x4949 then .LittleEndian
    else .BigEndian
  else .BigEndian

/-- Embedding of `parseHeaderBytes`.  Note the magic-number computation:
the Go source ORs `uint16(header[2])` and `uint16(header[3])` together
without any shift, in both endianness branches. -/
def parseHeaderBytes (header : List Nat) : Except String tiffHeader :=
  let eo := getEdianOrder header
  if header.length ≥ 8 then
    let magicNum : Nat :=
      match eo with
      | .BigEndian => (header.getD 2 0 % 256) ||| (header.getD 3 0 % 256)
      | .LittleEndian => (header.getD 3 0 % 256) ||| (header.getD 2 0 % 256)
    .ok { endianOrder := eo, magicNum := magicNum,
          tiffOffset := ConvertBytesToUInt32 (header.getD 4 0) (header.getD 5 0)
            (header.getD 6 0) (header.getD 7 0) eo }
  else .error "Header incorrect length"

/-- Embedding of `readHeaderBytes`: files of at most 1024 bytes are
rejected before any read; otherwise the first 8 bytes are returned (the
read cannot fail since the file holds more than 1024 bytes). -/
def readHeaderBytes (file : goFile) : Except String (List Nat) :=
  if file.size ≤ 1024 then .error "File is less than 1KB in size"
  else .ok (readBytes file 0 8)

/-- Embedding of `readIFDBytes`: a 2-byte tag count at `ifdOffset`, then
`ifdTagCount*12` bytes of directory body.  The buffer length is computed
in Go `uint16` arithmetic and the seek target `ifdOffset+2` in `uint32`
arithmetic, hence the explicit reductions. -/
def readIFDBytes (file : goFile) (ifdOffset : Nat) (endianOrder : EndianOrder) : List Nat :=
  let ifdTagCount :=
    ConvertBytesToUInt16 (readByte file ifdOffset) (readByte file (ifdOffset + 1)) endianOrder
  readBytes file ((ifdOffset + 2) % 4294967296) ((ifdTagCount * 12) % 65536)

/-- Embedding of the single-case switch body of `parseGPSIFDBytes` for
the 12-byte record starting at byte index `i`. -/
def parseGPSIFDTag (ifdData : List Nat) (tiffHeaderData : tiffHeader) (i : Nat)
    (gifd : gpsIFD) : gpsIFD :=
  let eo := tiffHeaderData.endianOrder
  let b := fun j => ifdData.getD (i + j) 0
  let tagAsInt := ConvertBytesToUInt16 (b 0) (b 1) eo
  let dataFormatAsInt := ConvertBytesToUInt16 (b 2) (b 3) eo
  let numOfElementsAsInt := ConvertBytesToUInt32 (b 4) (b 5) (b 6) (b 7) eo
  if tagAsInt = gpsVersionIDTag then
    if dataFormatAsInt % 256 = unsignedByteType then
      if numOfElementsAsInt = 4 then
        { gifd with GPSVersionID :=
            match eo with
            | .BigEndian => [b 8 % 256, b 9 % 256, b 10 % 256, b 11 % 256]
            | .LittleEndian => [b 11 % 256, b 10 % 256, b 9 % 256, b 8 % 256] }
      else gifd
    else gifd
  else gifd

/-- Embedding of `parseGPSIFDBytes`: walks the directory body, handling
one 12-byte record at every index divisible by 12 (the `file` handle is
taken but never read by the GPS switch). -/
def parseGPSIFDBytes (file : goFile) (ifdData : List Nat) (tiffHeaderData : tiffHeader) : gpsIFD :=
  let _ := file
  (List.range ifdData.length).foldl
    (fun g i => if i % 12 = 0 then parseGPSIFDTag ifdData tiffHeaderData i g else g) {}

/-- Embedding of the switch body of `parseIFDBytes` for the 12-byte
record starting at byte index `i`: decode tag, data format, element
count and value-or-offset, then dispatch on the tag.  Every case guards
on `uint8(dataFormatAsInt)` — the low 8 bits of the 16-bit type field —
matching the tag's expected type.  Scalar numeric tags take the decoded
`valueOrOffset` (or the two bytes at `i+8`/`i+9` for shorts) directly;
string/array tags and the Sub-IFD offsets tag read from the file at
offset `valueOrOffset`.  Buffer sizes `4*count` and `8*count` are Go
`uint32` products.  The out-of-line 4-byte chunks of the Sub-IFD offsets
array are converted with the slice converter, written here directly on
the chunk's four bytes. -/
def parseIFDTag (file : goFile) (ifdData : List Nat) (tiffHeaderData : tiffHeader) (i : Nat)
    (ifd : tiffIFD) : tiffIFD :=
  let eo := tiffHeaderData.endianOrder
  let b := fun j => ifdData.getD (i + j) 0
  let tagAsInt := ConvertBytesToUInt16 (b 0) (b 1) eo
  let dataFormatAsInt := ConvertBytesToUInt16 (b 2) (b 3) eo
  let numOfElementsAsInt := ConvertBytesToUInt32 (b 4) (b 5) (b 6) (b 7) eo
  let dataValueOrDataOffsetAsInt := ConvertBytesToUInt32 (b 8) (b 9) (b 10) (b 11) eo
  if tagAsInt = subfileTypeTag then
    if dataFormatAsInt % 256 = unsignedLongType then
      if numOfElementsAsInt = 1 then
        let firstBitFlag := b 11 % 256
        let secondBitFlag := b 10 % 256
        let thirdBitFlag := b 9 % 256
        let fourthBitFlag := b 8 % 256
        if firstBitFlag = 1 then { ifd with SubFileType := subfileTypeReducedResolutionImage }
        else if secondBitFlag = 1 then
          { ifd with SubFileType := subfileTypeSinglePageOfMultipageImage }
        else if thirdBitFlag = 1 then { ifd with SubFileType := subfileTypeTransparencyMaskImage }
        else if fourthBitFlag = 1 then { ifd with SubFileType := subfileTypeMRCImagingModel }
        else ifd
      else ifd
    else ifd
  else if tagAsInt = imageWidthTag then
    if dataFormatAsInt % 256 = unsignedLongType then
      { ifd with ImageWidth := dataValueOrDataOffsetAsInt }
    else ifd
  else if tagAsInt = imageHeightTag then
    if dataFormatAsInt % 256 = unsignedLongType then
      { ifd with ImageHeight := dataValueOrDataOffsetAsInt }
    else ifd
  else if tagAsInt = imageFullWidthTag then
    if dataFormatAsInt % 256 = unsignedLongType then
      { ifd with ImageFullWidth := dataValueOrDataOffsetAsInt }
    else ifd
  else if tagAsInt = imageFullHeightTag then
    if dataFormatAsInt % 256 = unsignedLongType then
      { ifd with ImageFullHeight := dataValueOrDataOffsetAsInt }
    else ifd
  else if tagAsInt = bitsPerSampleTag then
    if dataFormatAsInt % 256 = unsignedShortType then
      { ifd with BitsPerSample := readBytes file dataValueOrDataOffsetAsInt numOfElementsAsInt }
    else ifd
  else if tagAsInt = compressionTag then
    if dataFormatAsInt % 256 = unsignedShortType then
      { ifd with CompressionFlag := ConvertBytesToUInt16 (b 8) (b 9) eo }
    else ifd
  else if tagAsInt = photometricInterpretationTag then
    if dataFormatAsInt % 256 = unsignedShortType then
      { ifd with PhotometricInterpretationFlag := ConvertBytesToUInt16 (b 8) (b 9) eo }
    else ifd
  else if tagAsInt = makeTag then
    if dataFormatAsInt % 256 = asciiStringsType then
      { ifd with ImageMakeTag := readBytes file dataValueOrDataOffsetAsInt numOfElementsAsInt }
    else ifd
  else if tagAsInt = modelTag then
    if dataFormatAsInt % 256 = asciiStringsType then
      { ifd with ImageModelTag := readBytes file dataValueOrDataOffsetAsInt numOfElementsAsInt }
    else ifd
  else if tagAsInt = stripOffsetsTag then
    if dataFormatAsInt % 256 = unsignedLongType then
      { ifd with StripOffsets := dataValueOrDataOffsetAsInt }
    else ifd
  else if tagAsInt = orientationTag then
    if dataFormatAsInt % 256 = unsignedShortType then
      { ifd with OrientationFlag := ConvertBytesToUInt16 (b 8) (b 9) eo }
    else ifd
  else if tagAsInt = samplesPerPixelTag then
    if dataFormatAsInt % 256 = unsignedShortType then
      { ifd with SamplesPerPixel := ConvertBytesToUInt16 (b 8) (b 9) eo }
    else ifd
  else if tagAsInt = rowsPerStripTag then
    if dataFormatAsInt % 256 = unsignedLongType then
      { ifd with RowsPerStrip := dataValueOrDataOffsetAsInt }
    else ifd
  else if tagAsInt = stripByteCountsTag then
    if dataFormatAsInt % 256 = unsignedLongType then
      { ifd with StripByteCounts := dataValueOrDataOffsetAsInt }
    else ifd
  else if tagAsInt = xResolutionTag then
    if dataFormatAsInt % 256 = unsignedRationalType then
      { ifd with XResolution := dataValueOrDataOffsetAsInt }
    else ifd
  else if tagAsInt = yResolutionTag then
    if dataFormatAsInt % 256 = unsignedRationalType then
      { ifd with YResolution := dataValueOrDataOffsetAsInt }
    else ifd
  else if tagAsInt = planarConfigurationTag then
    if dataFormatAsInt % 256 = unsignedShortType then
      { ifd with PlanarConfiguration := ConvertBytesToUInt16 (b 8) (b 9) eo }
    else ifd
  else if tagAsInt = resolutionUnitTag then
    if dataFormatAsInt % 256 = unsignedShortType then
      { ifd with ResolutionUnit := ConvertBytesToUInt16 (b 8) (b 9) eo }
    else ifd
  else if tagAsInt = softwareTag then
    if dataFormatAsInt % 256 = asciiStringsType then
      { ifd with SoftwareTextData := readBytes file dataValueOrDataOffsetAsInt numOfElementsAsInt }
    else ifd
  else if tagAsInt = modifyDateTag then
    if dataFormatAsInt % 256 = asciiStringsType then
      { ifd with DateTimeText := readBytes file dataValueOrDataOffsetAsInt numOfElementsAsInt }
    else ifd
  else if tagAsInt = artistTag then
    -- the artist case reads and logs the text but assigns no IFD field
    ifd
  else if tagAsInt = subIFDA100DataOffsetTag then
    if dataFormatAsInt % 256 = unsignedLongType then
      let buf := readBytes file dataValueOrDataOffsetAsInt ((4 * numOfElementsAsInt) % 4294967296)
      { ifd with SubIFDOffsets :=
          (List.range numOfElementsAsInt).map (fun k =>
            ConvertBytesToUInt32 (buf.getD (4 * k) 0) (buf.getD (4 * k + 1) 0)
              (buf.getD (4 * k + 2) 0) (buf.getD (4 * k + 3) 0) eo) }
    else ifd
  else if tagAsInt = referenceBlackWhiteTag then
    if dataFormatAsInt % 256 = unsignedRationalType then
      let buf := readBytes file dataValueOrDataOffsetAsInt ((8 * numOfElementsAsInt) % 4294967296)
      { ifd with ReferenceBlackWhite :=
          (ConvertBytesToUInt64 (buf.getD 0 0) (buf.getD 1 0) (buf.getD 2 0) (buf.getD 3 0)
            (buf.getD 4 0) (buf.getD 5 0) (buf.getD 6 0) (buf.getD 7 0) eo) }
    else ifd
  else if tagAsInt = exifOffsetTag then
    if dataFormatAsInt % 256 = unsignedLongType then
      { ifd with ExifOffset := dataValueOrDataOffsetAsInt }
    else ifd
  else if tagAsInt = gpsInfoTag then
    if dataFormatAsInt % 256 = unsignedLongType then
      { ifd with GpsIFD :=
          (some (parseGPSIFDBytes file (readIFDBytes file dataValueOrDataOffsetAsInt eo)
            tiffHeaderData)) }
    else ifd
  else if tagAsInt = dateTimeOriginalTag then
    if dataFormatAsInt % 256 = asciiStringsType then
      { ifd with DateTimeOriginalText :=
          readBytes file dataValueOrDataOffsetAsInt numOfElementsAsInt }
    else ifd
  else if tagAsInt = tiffEPStandardIDTag then
    if dataFormatAsInt % 256 = unsignedByteType then
      { ifd with TiffEPStandardID := readBytes file dataValueOrDataOffsetAsInt numOfElementsAsInt }
    else ifd
  else if tagAsInt = jpegFromRawStartTag then
    if dataFormatAsInt % 256 = unsignedLongType then
      { ifd with JpegFromRawStart := dataValueOrDataOffsetAsInt }
    else ifd
  else if tagAsInt = jpegFromRawLengthTag then
    if dataFormatAsInt % 256 = unsignedLongType then
      { ifd with JpegFromRawLength := dataValueOrDataOffsetAsInt }
    else ifd
  else if tagAsInt = yCbCrPositioningTag then
    if dataFormatAsInt % 256 = unsignedShortType then
      { ifd with YCbCrPositioning := ConvertBytesToUInt16 (b 8) (b 9) eo }
    else ifd
  else ifd

/-- Embedding of `parseIFDBytes`: iterate over every byte index of the
directory body, handling one 12-byte record at every index divisible by
12, accumulating fields into an initially zero-valued `tiffIFD`. -/
def parseIFDBytes (file : goFile) (ifdData : List Nat) (tiffHeaderData : tiffHeader) : tiffIFD :=
  (List.range ifdData.length).foldl
    (fun ifd i => if i % 12 = 0 then parseIFDTag file ifdData tiffHeaderData i ifd else ifd) {}

/-- Embedding of `rawImage.Load`: read and parse the header, parse IFD0
at the header's offset, then parse one further IFD per entry of IFD0's
`SubIFDOffsets`, in array order, appending to the IFD list. -/
def rawImageLoad (file : goFile) : Except String (tiffHeader × List tiffIFD) :=
  match readHeaderBytes file with
  | .error e => .error e
  | .ok headerBytes =>
    match parseHeaderBytes headerBytes with
    | .error e => .error e
    | .ok hdr =>
      let ifd0 := parseIFDBytes file (readIFDBytes file hdr.tiffOffset hdr.endianOrder) hdr
      .ok (hdr, ifd0 ::
        ifd0.SubIFDOffsets.map (fun off =>
          parseIFDBytes file (readIFDBytes file off hdr.endianOrder) hdr))

/-- Results of the external collaborators reached by
`nefImage.convertToJPEG`: the `os.Create` call on the output path, the
`jpeg.Decode` success predicate on the extracted preview bytes, and the
`jpeg.Encode` result on a successfully decoded image.  The source
overwrites `conversionError` with `nil` after the encode call, so
`encodeErr` is deliberately never consulted by the embedding — exactly
as in the source. -/
structure jpegEnv where
  createErr : Option String
  decodes : List Nat → Bool
  encodeErr : Option String

/-- Observable outcome of a conversion call: a returned Go error value
together with whether the output file was created, or a runtime panic
(raised inside `jpeg.Encode` when it is handed the nil image left by a
failed `jpeg.Decode`). -/
inductive convOutcome where
  | ret (conversionError : Option String) (outputCreated : Bool)
  | panics (outputCreated : Bool)
deriving DecidableEq

/-- Embedding of `nefImage.convertToJPEG`.  Control flow of the source:
a `Load` failure is returned; with fewer than two IFDs nothing happens
and `nil` is returned; an `os.Create` failure is returned; otherwise
`JpegFromRawLength` bytes at `JpegFromRawStart` of `ifds[1]` are read
and decoded — on decode failure the error is stored but `jpeg.Encode`
is then called on the nil image (runtime panic), and on decode success
the encode result and any stored error are overwritten by the trailing
`conversionError = nil`, so `nil` is returned. -/
def nefConvertToJPEG (env : jpegEnv) (file : goFile) : convOutcome :=
  match rawImageLoad file with
  | .error e => .ret (some e) false
  | .ok (_, ifds) =>
    if ifds.length ≥ 2 then
      match env.createErr with
      | some e => .ret (some e) false
      | none =>
        let ifd1 := ifds.getD 1 {}
        let data := readBytes file ifd1.JpegFromRawStart ifd1.JpegFromRawLength
        if env.decodes data then .ret none true
        else .panics true
    else .ret none false

/-- Embedding of `cr2Image.convertToJPEG`: the body is `return nil` —
no load, no output file, no error. -/
def cr2ConvertToJPEG (_file : goFile) (_outputPath : String) : Option String := none

/-- Embedding of `cr2Image.convertToPNG`: likewise `return nil`. -/
def cr2ConvertToPNG (_file : goFile) (_outputPath : String) : Option String := none

/-! Field accessors for a single 12-byte tag record, used to state
theorems about `parseIFDBytes`; they mirror the four decodes at the top
of the record loop. -/

/-- Tag identifier of a 12-byte record (bytes 0-1). -/
def recTag (rec : List Nat) (eo : EndianOrder) : Nat :=
  ConvertBytesToUInt16 (rec.getD 0 0) (rec.getD 1 0) eo

/-- Declared data type of a 12-byte record (bytes 2-3, a 16-bit field). -/
def recFmt (rec : List Nat) (eo : EndianOrder) : Nat :=
  ConvertBytesToUInt16 (rec.getD 2 0) (rec.getD 3 0) eo

/-- Element count of a 12-byte record (bytes 4-7). -/
def recCount (rec : List Nat) (eo : EndianOrder) : Nat :=
  ConvertBytesToUInt32 (rec.getD 4 0) (rec.getD 5 0) (rec.getD 6 0) (rec.getD 7 0) eo

/-- Value-or-offset field of a 12-byte record (bytes 8-11). -/
def recVo (rec : List Nat) (eo : EndianOrder) : Nat :=
  ConvertBytesToUInt32 (rec.getD 8 0) (rec.getD 9 0) (rec.getD 10 0) (rec.getD 11 0) eo

/-- The expected data type each recognized tag's switch case guards on
(the tag registry implicit in `parseIFDBytes`); `none` for tags the
switch does not dispatch on. -/
def expectedTagType (tag : Nat) : Option Nat :=
  if tag = subfileTypeTag then some unsignedLongType
  else if tag = imageWidthTag then some unsignedLongType
  else if tag = imageHeightTag then some unsignedLongType
  else if tag = imageFullWidthTag then some unsignedLongType
  else if tag = imageFullHeightTag then some unsignedLongType
  else if tag = bitsPerSampleTag then some unsignedShortType
  else if tag = compressionTag then some unsignedShortType
  else if tag = photometricInterpretationTag then some unsignedShortType
  else if tag = makeTag then some asciiStringsType
  else if tag = modelTag then some asciiStringsType
  else if tag = stripOffsetsTag then some unsignedLongType
  else if tag = orientationTag then some unsignedShortType
  else if tag = samplesPerPixelTag then some unsignedShortType
  else if tag = rowsPerStripTag then some unsignedLongType
  else if tag = stripByteCountsTag then some unsignedLongType
  else if tag = xResolutionTag then some unsignedRationalType
  else if tag = yResolutionTag then some unsignedRationalType
  else if tag = planarConfigurationTag then some unsignedShortType
  else if tag = resolutionUnitTag then some unsignedShortType
  else if tag = softwareTag then some asciiStringsType
  else if tag = modifyDateTag then some asciiStringsType
  else if tag = artistTag then some asciiStringsType
  else if tag = subIFDA100DataOffsetTag then some unsignedLongType
  else if tag = referenceBlackWhiteTag then some unsignedRationalType
  else if tag = exifOffsetTag then some unsignedLongType
  else if tag = gpsInfoTag then some unsignedLongType
  else if tag = dateTimeOriginalTag then some asciiStringsType
  else if tag = tiffEPStandardIDTag then some unsignedByteType
  else if tag = jpegFromRawStartTag then some unsignedLongType
  else if tag = jpegFromRawLengthTag then some unsignedLongType
  else if tag = yCbCrPositioningTag then some unsignedShortType
  else none

/-! Concrete inputs used by witnesses and counterexamples. -/

/-- File whose first bytes are the given list (zero-filled up to `size`). -/
def fileOfBytes (bs : List Nat) (size : Nat) : goFile :=
  { size := size, content := fun i => bs.getD i 0 }

/-- A 1025-byte NEF-shaped file: big-endian header with IFD0 at offset
8; IFD0 holds one record, a Sub-IFD offsets array with one entry stored
at offset 22 pointing at offset 26; the Sub-IFD at 26 holds one record
setting `JpegFromRawLength = 4`. -/
def c2Bytes : List Nat :=
  [0x4d, 0x4d, 0x00, 0x2a, 0x00, 0x00, 0x00, 0x08,
   0x00, 0x01,
   0x01, 0x4a, 0x00, 0x04, 0x00, 0x00, 0x00, 0x01, 0x00, 0x00, 0x00, 0x16,
   0x00, 0x00, 0x00, 0x1a,
   0x00, 0x01,
   0x02, 0x02, 0x00, 0x04, 0x00, 0x00, 0x00, 0x01, 0x00, 0x00, 0x00, 0x04]

def c2File : goFile := fileOfBytes c2Bytes 1025

/-- Collaborator results for the C2 failing input: output creation
succeeds and the extracted bytes are not a valid JPEG. -/
def c2Env : jpegEnv := { createErr := none, decodes := fun _ => false, encodeErr := none }

/-- Same layout as `c2Bytes` but the Sub-IFD record sets the image
width, for the IFD-ordering witness. -/
def c3Bytes : List Nat :=
  [0x4d, 0x4d, 0x00, 0x2a, 0x00, 0x00, 0x00, 0x08,
   0x00, 0x01,
   0x01, 0x4a, 0x00, 0x04, 0x00, 0x00, 0x00, 0x01, 0x00, 0x00, 0x00, 0x16,
   0x00, 0x00, 0x00, 0x1a,
   0x00, 0x01,
   0x01, 0x00, 0x00, 0x04, 0x00, 0x00, 0x00, 0x01, 0x00, 0x00, 0x03, 0xe7]

def c3File : goFile := fileOfBytes c3Bytes 1025

def c3Hdr : tiffHeader :=
  match rawImageLoad c3File with
  | .ok (h, _) => h
  | .error _ => {}

def c3Ifds : List tiffIFD :=
  match rawImageLoad c3File with
  | .ok (_, l) => l
  | .error _ => []

/-- A single Sub-IFD-offsets record with `count = 1` and
`valueOrOffset = 100`; the file stores the bytes `0,0,0,153` at
offset 100. -/
def c4Record : List Nat :=
  [0x01, 0x4a, 0x00, 0x04, 0x00, 0x00, 0x00, 0x01, 0x00, 0x00, 0x00, 0x64]

def c4File : goFile :=
  { size := 1025, content := fun i =>
      if i = 103 then 153 else if i = 106 then 1 else if i = 107 then 44 else 0 }

def c4Hdr : tiffHeader := { endianOrder := .BigEndian, magicNum := 42, tiffOffset := 8 }

/-- Header whose magic-number bytes are `0x01 0x02`: their 16-bit
big-endian value is 258, their bitwise OR is 3. -/
def c5Header : List Nat := [0x4d, 0x4d, 0x01, 0x02, 0x00, 0x00, 0x00, 0x08]

/-- Little-endian header with magic-number bytes `0x10 0x01` (OR 17),
for the amended-magic-number witness. -/
def c5WitHeader : List Nat := [0x49, 0x49, 0x10, 0x01, 0x01, 0x00, 0x00, 0x00]

/-- Little-endian-marked 8-byte header, for the endianness witness. -/
def c6Header : List Nat := [0x49, 0x49, 0x2a, 0x00, 0x08, 0x00, 0x00, 0x00]

/-- Image-width record whose 16-bit declared type is `0x0104 = 260`:
different from `unsignedLongType = 4`, but equal to it modulo 256. -/
def c7Record : List Nat :=
  [0x01, 0x00, 0x01, 0x04, 0x00, 0x00, 0x00, 0x01, 0x00, 0x00, 0x00, 0x07]

/-- Image-width record declaring `unsignedShortType` (a genuine
mismatch also modulo 256), for the mismatch-skip witness. -/
def c7WitRecord : List Nat :=
  [0x01, 0x00, 0x00, 0x03, 0x00, 0x00, 0x00, 0x01, 0x00, 0x00, 0x00, 0x07]

def c7File : goFile := fileOfBytes [] 0

/-- Header with Go zero values (big-endian default), used where only the
endianness matters. -/
def c7Hdr : tiffHeader := {}

/-- Well-typed image-width record with inline value 42, for the
inline-value witness. -/
def c4WidthRecord : List Nat :=
  [0x01, 0x00, 0x00, 0x04, 0x00, 0x00, 0x00, 0x01, 0x00, 0x00, 0x00, 0x2a]

/-- Well-typed orientation record with inline short value `0xabcd`, for
the inline-short witness. -/
def c4OrientRecord : List Nat :=
  [0x01, 0x12, 0x00, 0x03, 0x00, 0x00, 0x00, 0x01, 0xab, 0xcd, 0x00, 0x00]

/-- Sub-IFD offsets record with two elements stored at offset 100
(values 153 and 300 in `c4File`), for the general-count seek witness. -/
def c4Record2 : List Nat :=
  [0x01, 0x4a, 0x00, 0x04, 0x00, 0x00, 0x00, 0x02, 0x00, 0x00, 0x00, 0x64]

/-- A 1025-byte file whose IFD0 holds zero records, so `Load` yields a
single IFD. -/
def c8File : goFile := fileOfBytes [0x4d, 0x4d, 0x00, 0x2a, 0x00, 0x00, 0x00, 0x08, 0x00, 0x00] 1025

def c8Env : jpegEnv := { createErr := none, decodes := fun _ => true, encodeErr := none }

def c8Hdr : tiffHeader :=
  match rawImageLoad c8File with
  | .ok (h, _) => h
  | .error _ => {}

def c8Ifds : List tiffIFD :=
  match rawImageLoad c8File with
  | .ok (_, l) => l
  | .error _ => []

def c9Small : goFile := fileOfBytes [0x4d, 0x4d, 0x00, 0x2a] 1024

def c9Big : goFile := fileOfBytes [0x4d, 0x4d, 0x00, 0x2a, 0x00, 0x00, 0x00, 0x08] 1025

def c1File : goFile := fileOfBytes [] 0

/-! Theorems settling the claims. -/

/-- C1 (counterexample): on a concrete CR2 conversion request the code
returns `nil` — no "unsupported format" error is produced, so the
conversion silently succeeds as a no-op. -/
theorem cr2Convert_noop_counterexample :
    cr2ConvertToJPEG c1File "out.jpg" = none ∧ cr2ConvertToPNG c1File "out.png" = none :=
  ⟨rfl, rfl⟩

/-- C1 (amended): for every CR2 image and output path, the conversion
request (to JPEG or to PNG) returns `nil`: a silent no-op that touches
neither the file nor the output path and never reports an error. -/
theorem cr2Convert_silent_noop (file : goFile) (outputPath : String) :
    cr2ConvertToJPEG file outputPath = none ∧ cr2ConvertToPNG file outputPath = none :=
  ⟨rfl, rfl⟩

/-- C2: on a NEF file that loads with two IFDs, with output creation
succeeding and the embedded preview bytes not decoding as JPEG, the
conversion does not return a decode error: the stored decode error is
dead (overwritten by the trailing `conversionError = nil`) and the nil
image is passed to `jpeg.Encode`, which panics. -/
theorem nefConvertToJPEG_decode_error_swallowed :
    (rawImageLoad c2File).toOption.map (fun p => p.2.length) = some 2 ∧
    c2Env.createErr = none ∧
    nefConvertToJPEG c2Env c2File = .panics true :=
  ⟨rfl, rfl, rfl⟩

/-- C8: whenever loading succeeds with fewer than two IFDs, the NEF
preview conversion creates no output file and returns no error. -/
theorem nefConvertToJPEG_fewer_than_two_ifds (env : jpegEnv) (file : goFile)
    (hdr : tiffHeader) (ifds : List tiffIFD)
    (hload : rawImageLoad file = .ok (hdr, ifds)) (hlen : ifds.length < 2) :
    nefConvertToJPEG env file = .ret none false := by
  simp only [nefConvertToJPEG, hload]
  rw [if_neg (by omega)]

/-- C8 (witness): a file with an empty IFD0 loads with one IFD and the
conversion returns no error and creates nothing. -/
theorem nefConvertToJPEG_fewer_than_two_ifds_witness :
    nefConvertToJPEG c8Env c8File = .ret none false :=
  nefConvertToJPEG_fewer_than_two_ifds c8Env c8File c8Hdr c8Ifds rfl (by decide)

/-- C9: a file of at most 1024 bytes is rejected with the
file-too-small error (for every possible content, so before any header
byte is consulted); a larger file yields the 8-byte header without
error. -/
theorem readHeaderBytes_size_guard (file : goFile) :
    (file.size ≤ 1024 → readHeaderBytes file = .error "File is less than 1KB in size") ∧
    (1024 < file.size →
      readHeaderBytes file = .ok (readBytes file 0 8) ∧ (readBytes file 0 8).length = 8) := by
  constructor
  · intro h
    simp only [readHeaderBytes]
    rw [if_pos h]
  · intro h
    refine ⟨?_, by simp [readBytes]⟩
    simp only [readHeaderBytes]
    rw [if_neg (by omega)]

/-- C9 (witness): the guard at concrete sizes 1024 and 1025. -/
theorem readHeaderBytes_size_guard_witness :
    readHeaderBytes c9Small = .error "File is less than 1KB in size" ∧
    readHeaderBytes c9Big = .ok (readBytes c9Big 0 8) :=
  ⟨(readHeaderBytes_size_guard c9Small).1 (by decide),
   ((readHeaderBytes_size_guard c9Big).2 (by decide)).1⟩

/-- C5 (counterexample): on a header whose magic-number bytes are
`0x01 0x02`, the 16-bit big-endian value of bytes 2-3 is 258, but the
parser stores 3 — the bitwise OR of the two bytes, not their 16-bit
combination. -/
theorem magicNum_or_counterexample :
    parseHeaderBytes c5Header = .ok { endianOrder := .BigEndian, magicNum := 3, tiffOffset := 8 } ∧
    ConvertBytesToUInt16 0x01 0x02 .BigEndian = 258 ∧ (3 : Nat) ≠ 258 :=
  ⟨rfl, rfl, by decide⟩

/-- C5 (amended): for every header of at least 8 bytes the parser
succeeds (a magic number different from 42 is recorded, never fatal) and
stores as magic number the bitwise OR of bytes 2 and 3 — an
order-independent value equal to the claimed 16-bit decoding only when
the high-order byte of that decoding is zero. -/
theorem parseHeaderBytes_magicNum_lor (header : List Nat) (h : header.length ≥ 8) :
    ∃ hd, parseHeaderBytes header = .ok hd ∧
      hd.endianOrder = getEdianOrder header ∧
      hd.magicNum = (header.getD 2 0 % 256) ||| (header.getD 3 0 % 256) := by
  simp only [parseHeaderBytes]
  rw [if_pos h]
  refine ⟨_, rfl, rfl, ?_⟩
  cases heo : getEdianOrder header <;> simp [Nat.lor_comm]

/-- C5 (witness): the amended statement at a concrete little-endian
header whose magic-number bytes OR to 17. -/
theorem parseHeaderBytes_magicNum_lor_witness :
    ∃ hd, parseHeaderBytes c5WitHeader = .ok hd ∧
      hd.endianOrder = getEdianOrder c5WitHeader ∧
      hd.magicNum = (c5WitHeader.getD 2 0 % 256) ||| (c5WitHeader.getD 3 0 % 256) :=
  parseHeaderBytes_magicNum_lor c5WitHeader (by decide)

/-- C6: for every 8-byte header, marker `0x4d4d` (read big-endian from
bytes 0-1) yields big-endian, `0x4949` yields little-endian, and any
other marker falls back to big-endian; in all cases header parsing
raises no error. -/
theorem getEdianOrder_marker (header : List Nat) (h : header.length = 8) :
    (ConvertBytesToUInt16 (header.getD 0 0) (header.getD 1 0) .BigEndian = 0x4d4d →
      getEdianOrder header = .BigEndian) ∧
    (ConvertBytesToUInt16 (header.getD 0 0) (header.getD 1 0) .BigEndian = 0x4949 →
      getEdianOrder header = .LittleEndian) ∧
    (ConvertBytesToUInt16 (header.getD 0 0) (header.getD 1 0) .BigEndian ≠ 0x4d4d →
      ConvertBytesToUInt16 (header.getD 0 0) (header.getD 1 0) .BigEndian ≠ 0x4949 →
      getEdianOrder header = .BigEndian) ∧
    (∃ hd, parseHeaderBytes header = .ok hd) := by
  have h4 : header.length ≥ 4 := by omega
  refine ⟨?_, ?_, ?_, ?_⟩
  · intro hm
    simp only [getEdianOrder]
    rw [if_pos h4, if_pos hm]
  · intro hm
    simp only [getEdianOrder]
    rw [if_pos h4, if_neg (by rw [hm]; decide), if_pos hm]
  · intro hm1 hm2
    simp only [getEdianOrder]
    rw [if_pos h4, if_neg hm1, if_neg hm2]
  · simp only [parseHeaderBytes]
    rw [if_pos (by omega : header.length ≥ 8)]
    exact ⟨_, rfl⟩

/-- C6 (witness): the little-endian marker on a concrete header. -/
theorem getEdianOrder_marker_witness :
    getEdianOrder c6Header = .LittleEndian ∧ (∃ hd, parseHeaderBytes c6Header = .ok hd) :=
  ⟨(getEdianOrder_marker c6Header rfl).2.1 (by decide),
   (getEdianOrder_marker c6Header rfl).2.2.2⟩


/-- List of twelve bytes is processed by `parseIFDBytes` as the single
record at index 0. -/
theorem parseIFDBytes_single (file : goFile) (rec : List Nat) (hdr : tiffHeader)
    (hlen : rec.length = 12) :
    parseIFDBytes file rec hdr = parseIFDTag file rec hdr 0 {} := by
  unfold parseIFDBytes
  rw [hlen]
  rfl

/-- C3: a successful `Load` yields the IFD list headed by IFD0 (parsed
at the header offset), of length one plus the number of IFD0 Sub-IFD
offsets, with entry `j+1` the IFD parsed at the `j`-th offset of IFD0's
`SubIFDOffsets`, in array order. -/
theorem rawImageLoad_ifd_order (file : goFile) (hdr : tiffHeader) (ifds : List tiffIFD)
    (h : rawImageLoad file = .ok (hdr, ifds)) :
    ∃ ifd0, ifds.head? = some ifd0 ∧
      ifd0 = parseIFDBytes file (readIFDBytes file hdr.tiffOffset hdr.endianOrder) hdr ∧
      ifds.length = 1 + ifd0.SubIFDOffsets.length ∧
      ∀ j, j < ifd0.SubIFDOffsets.length →
        ifds[j+1]? = some (parseIFDBytes file
          (readIFDBytes file (ifd0.SubIFDOffsets.getD j 0) hdr.endianOrder) hdr) := by
  cases hrh : readHeaderBytes file with
  | error e => simp [rawImageLoad, hrh] at h
  | ok headerBytes =>
    cases hph : parseHeaderBytes headerBytes with
    | error e2 => simp [rawImageLoad, hrh, hph] at h
    | ok hdr0 =>
      simp only [rawImageLoad, hrh, hph, Except.ok.injEq, Prod.mk.injEq] at h
      obtain ⟨rfl, rfl⟩ := h
      refine ⟨_, rfl, rfl, by simp [Nat.add_comm], ?_⟩
      intro j hj
      simp only [List.getElem?_cons_succ, List.getElem?_map]
      rw [List.getElem?_eq_getElem hj, List.getD_eq_getElem _ _ hj]
      rfl

/-- C3 (witness): the ordering statement at a concrete file with one
Sub-IFD. -/
theorem rawImageLoad_ifd_order_witness :
    ∃ ifd0, c3Ifds.head? = some ifd0 ∧
      ifd0 = parseIFDBytes c3File (readIFDBytes c3File c3Hdr.tiffOffset c3Hdr.endianOrder) c3Hdr ∧
      c3Ifds.length = 1 + ifd0.SubIFDOffsets.length ∧
      ∀ j, j < ifd0.SubIFDOffsets.length →
        c3Ifds[j+1]? = some (parseIFDBytes c3File
          (readIFDBytes c3File (ifd0.SubIFDOffsets.getD j 0) c3Hdr.endianOrder) c3Hdr) :=
  rawImageLoad_ifd_order c3File c3Hdr c3Ifds rfl

/-- C4 (counterexample): for a Sub-IFD offsets record with one element
(total data size 4 bytes), the decoder does not take `valueOrOffset`
(here 100) as the offset value: it seeks the file to position 100 and
reads the stored array entry 153. -/
theorem subIFD_inline_counterexample :
    recCount c4Record .BigEndian = 1 ∧
    recVo c4Record .BigEndian = 100 ∧
    (parseIFDBytes c4File c4Record c4Hdr).SubIFDOffsets = [153] ∧ (153 : Nat) ≠ 100 :=
  ⟨rfl, rfl, rfl, by decide⟩

/-- Element `j` of an `n`-byte read at offset `off` is the byte at
absolute position `off + j`. -/
theorem readBytes_getD (f : goFile) (off n j : Nat) (h : j < n) :
    (readBytes f off n).getD j 0 = readByte f (off + j) := by
  unfold readBytes
  rw [List.getD_eq_getElem _ _ (by simpa using h)]
  simp

/-- Mapping pointwise-equal functions over `List.range n` gives equal
lists. -/
theorem map_congr_range {β : Type} (n : Nat) (f g : Nat → β)
    (h : ∀ k, k < n → f k = g k) :
    (List.range n).map f = (List.range n).map g := by
  induction n with
  | zero => rfl
  | succ m ih =>
    rw [List.range_succ]
    simp only [List.map_append, List.map_cons, List.map_nil]
    rw [ih (fun k hk => h k (Nat.lt_succ_of_lt hk)), h m (Nat.lt_succ_self m)]

/-- C4 (amended): every scalar numeric tag whose matching-typed value
fits in 4 bytes takes it directly from the record — the unsigned-long
and rational tags (image width/height, full width/height, strip
offsets/byte counts, rows-per-strip, X/Y resolution, EXIF offset, JPEG
preview start/length) read `valueOrOffset` itself, and the short-typed
tags (compression, photometric interpretation, orientation,
samples-per-pixel, planar configuration, resolution unit, YCbCr
positioning) read the 16-bit value from bytes 8-9; the Sub-IFD offsets
tag, however, always seeks the file to `valueOrOffset` and reads
`4 × elementCount` bytes there, splitting them into `elementCount`
32-bit values in file order — even when `elementCount = 1` and the data
would fit inline. -/
theorem parseIFD_inline_and_subIFD_seek (file : goFile) (rec : List Nat) (hdr : tiffHeader)
    (hlen : rec.length = 12) :
    (recTag rec hdr.endianOrder = imageWidthTag →
      recFmt rec hdr.endianOrder % 256 = unsignedLongType →
      (parseIFDBytes file rec hdr).ImageWidth = recVo rec hdr.endianOrder) ∧
    (recTag rec hdr.endianOrder = imageHeightTag →
      recFmt rec hdr.endianOrder % 256 = unsignedLongType →
      (parseIFDBytes file rec hdr).ImageHeight = recVo rec hdr.endianOrder) ∧
    (recTag rec hdr.endianOrder = imageFullWidthTag →
      recFmt rec hdr.endianOrder % 256 = unsignedLongType →
      (parseIFDBytes file rec hdr).ImageFullWidth = recVo rec hdr.endianOrder) ∧
    (recTag rec hdr.endianOrder = imageFullHeightTag →
      recFmt rec hdr.endianOrder % 256 = unsignedLongType →
      (parseIFDBytes file rec hdr).ImageFullHeight = recVo rec hdr.endianOrder) ∧
    (recTag rec hdr.endianOrder = stripOffsetsTag →
      recFmt rec hdr.endianOrder % 256 = unsignedLongType →
      (parseIFDBytes file rec hdr).StripOffsets = recVo rec hdr.endianOrder) ∧
    (recTag rec hdr.endianOrder = rowsPerStripTag →
      recFmt rec hdr.endianOrder % 256 = unsignedLongType →
      (parseIFDBytes file rec hdr).RowsPerStrip = recVo rec hdr.endianOrder) ∧
    (recTag rec hdr.endianOrder = stripByteCountsTag →
      recFmt rec hdr.endianOrder % 256 = unsignedLongType →
      (parseIFDBytes file rec hdr).StripByteCounts = recVo rec hdr.endianOrder) ∧
    (recTag rec hdr.endianOrder = exifOffsetTag →
      recFmt rec hdr.endianOrder % 256 = unsignedLongType →
      (parseIFDBytes file rec hdr).ExifOffset = recVo rec hdr.endianOrder) ∧
    (recTag rec hdr.endianOrder = jpegFromRawStartTag →
      recFmt rec hdr.endianOrder % 256 = unsignedLongType →
      (parseIFDBytes file rec hdr).JpegFromRawStart = recVo rec hdr.endianOrder) ∧
    (recTag rec hdr.endianOrder = jpegFromRawLengthTag →
      recFmt rec hdr.endianOrder % 256 = unsignedLongType →
      (parseIFDBytes file rec hdr).JpegFromRawLength = recVo rec hdr.endianOrder) ∧
    (recTag rec hdr.endianOrder = xResolutionTag →
      recFmt rec hdr.endianOrder % 256 = unsignedRationalType →
      (parseIFDBytes file rec hdr).XResolution = recVo rec hdr.endianOrder) ∧
    (recTag rec hdr.endianOrder = yResolutionTag →
      recFmt rec hdr.endianOrder % 256 = unsignedRationalType →
      (parseIFDBytes file rec hdr).YResolution = recVo rec hdr.endianOrder) ∧
    (recTag rec hdr.endianOrder = compressionTag →
      recFmt rec hdr.endianOrder % 256 = unsignedShortType →
      (parseIFDBytes file rec hdr).CompressionFlag = ConvertBytesToUInt16 (rec.getD 8 0) (rec.getD 9 0) hdr.endianOrder) ∧
    (recTag rec hdr.endianOrder = photometricInterpretationTag →
      recFmt rec hdr.endianOrder % 256 = unsignedShortType →
      (parseIFDBytes file rec hdr).PhotometricInterpretationFlag = ConvertBytesToUInt16 (rec.getD 8 0) (rec.getD 9 0) hdr.endianOrder) ∧
    (recTag rec hdr.endianOrder = orientationTag →
      recFmt rec hdr.endianOrder % 256 = unsignedShortType →
      (parseIFDBytes file rec hdr).OrientationFlag = ConvertBytesToUInt16 (rec.getD 8 0) (rec.getD 9 0) hdr.endianOrder) ∧
    (recTag rec hdr.endianOrder = samplesPerPixelTag →
      recFmt rec hdr.endianOrder % 256 = unsignedShortType →
      (parseIFDBytes file rec hdr).SamplesPerPixel = ConvertBytesToUInt16 (rec.getD 8 0) (rec.getD 9 0) hdr.endianOrder) ∧
    (recTag rec hdr.endianOrder = planarConfigurationTag →
      recFmt rec hdr.endianOrder % 256 = unsignedShortType →
      (parseIFDBytes file rec hdr).PlanarConfiguration = ConvertBytesToUInt16 (rec.getD 8 0) (rec.getD 9 0) hdr.endianOrder) ∧
    (recTag rec hdr.endianOrder = resolutionUnitTag →
      recFmt rec hdr.endianOrder % 256 = unsignedShortType →
      (parseIFDBytes file rec hdr).ResolutionUnit = ConvertBytesToUInt16 (rec.getD 8 0) (rec.getD 9 0) hdr.endianOrder) ∧
    (recTag rec hdr.endianOrder = yCbCrPositioningTag →
      recFmt rec hdr.endianOrder % 256 = unsignedShortType →
      (parseIFDBytes file rec hdr).YCbCrPositioning = ConvertBytesToUInt16 (rec.getD 8 0) (rec.getD 9 0) hdr.endianOrder) ∧
    (recTag rec hdr.endianOrder = subIFDA100DataOffsetTag →
      recFmt rec hdr.endianOrder % 256 = unsignedLongType →
      recCount rec hdr.endianOrder = 1 →
      (parseIFDBytes file rec hdr).SubIFDOffsets =
        [ConvertBytesToUInt32 (readByte file (recVo rec hdr.endianOrder))
          (readByte file (recVo rec hdr.endianOrder + 1))
          (readByte file (recVo rec hdr.endianOrder + 2))
          (readByte file (recVo rec hdr.endianOrder + 3)) hdr.endianOrder]) ∧
    (recTag rec hdr.endianOrder = subIFDA100DataOffsetTag →
      recFmt rec hdr.endianOrder % 256 = unsignedLongType →
      4 * recCount rec hdr.endianOrder < 4294967296 →
      (parseIFDBytes file rec hdr).SubIFDOffsets =
        (List.range (recCount rec hdr.endianOrder)).map (fun k =>
          ConvertBytesToUInt32 (readByte file (recVo rec hdr.endianOrder + 4 * k))
            (readByte file (recVo rec hdr.endianOrder + (4 * k + 1)))
            (readByte file (recVo rec hdr.endianOrder + (4 * k + 2)))
            (readByte file (recVo rec hdr.endianOrder + (4 * k + 3))) hdr.endianOrder) ∧
      (parseIFDBytes file rec hdr).SubIFDOffsets.length = recCount rec hdr.endianOrder) := by
  rw [parseIFDBytes_single file rec hdr hlen]
  refine ⟨?_, ?_, ?_, ?_, ?_, ?_, ?_, ?_, ?_, ?_, ?_, ?_, ?_, ?_, ?_, ?_, ?_, ?_, ?_, ?_, ?_⟩
  · intro htag hfmt
    unfold recTag at htag
    unfold recFmt at hfmt
    simp_all [parseIFDTag, recVo, readBytes, List.range_succ,
      subIFDA100DataOffsetTag, subfileTypeTag, imageWidthTag, imageHeightTag,
      imageFullWidthTag, imageFullHeightTag, bitsPerSampleTag, compressionTag,
      photometricInterpretationTag, makeTag, modelTag, stripOffsetsTag, orientationTag,
      samplesPerPixelTag, rowsPerStripTag, stripByteCountsTag, xResolutionTag,
      yResolutionTag, planarConfigurationTag, resolutionUnitTag, softwareTag,
      modifyDateTag, artistTag, referenceBlackWhiteTag, exifOffsetTag, gpsInfoTag,
      dateTimeOriginalTag, tiffEPStandardIDTag, jpegFromRawStartTag, jpegFromRawLengthTag,
      yCbCrPositioningTag, unsignedByteType, asciiStringsType, unsignedShortType,
      unsignedLongType, unsignedRationalType]
  · intro htag hfmt
    unfold recTag at htag
    unfold recFmt at hfmt
    simp_all [parseIFDTag, recVo, readBytes, List.range_succ,
      subIFDA100DataOffsetTag, subfileTypeTag, imageWidthTag, imageHeightTag,
      imageFullWidthTag, imageFullHeightTag, bitsPerSampleTag, compressionTag,
      photometricInterpretationTag, makeTag, modelTag, stripOffsetsTag, orientationTag,
      samplesPerPixelTag, rowsPerStripTag, stripByteCountsTag, xResolutionTag,
      yResolutionTag, planarConfigurationTag, resolutionUnitTag, softwareTag,
      modifyDateTag, artistTag, referenceBlackWhiteTag, exifOffsetTag, gpsInfoTag,
      dateTimeOriginalTag, tiffEPStandardIDTag, jpegFromRawStartTag, jpegFromRawLengthTag,
      yCbCrPositioningTag, unsignedByteType, asciiStringsType, unsignedShortType,
      unsignedLongType, unsignedRationalType]
  · intro htag hfmt
    unfold recTag at htag
    unfold recFmt at hfmt
    simp_all [parseIFDTag, recVo, readBytes, List.range_succ,
      subIFDA100DataOffsetTag, subfileTypeTag, imageWidthTag, imageHeightTag,
      imageFullWidthTag, imageFullHeightTag, bitsPerSampleTag, compressionTag,
      photometricInterpretationTag, makeTag, modelTag, stripOffsetsTag, orientationTag,
      samplesPerPixelTag, rowsPerStripTag, stripByteCountsTag, xResolutionTag,
      yResolutionTag, planarConfigurationTag, resolutionUnitTag, softwareTag,
      modifyDateTag, artistTag, referenceBlackWhiteTag, exifOffsetTag, gpsInfoTag,
      dateTimeOriginalTag, tiffEPStandardIDTag, jpegFromRawStartTag, jpegFromRawLengthTag,
      yCbCrPositioningTag, unsignedByteType, asciiStringsType, unsignedShortType,
      unsignedLongType, unsignedRationalType]
  · intro htag hfmt
    unfold recTag at htag
    unfold recFmt at hfmt
    simp_all [parseIFDTag, recVo, readBytes, List.range_succ,
      subIFDA100DataOffsetTag, subfileTypeTag, imageWidthTag, imageHeightTag,
      imageFullWidthTag, imageFullHeightTag, bitsPerSampleTag, compressionTag,
      photometricInterpretationTag, makeTag, modelTag, stripOffsetsTag, orientationTag,
      samplesPerPixelTag, rowsPerStripTag, stripByteCountsTag, xResolutionTag,
      yResolutionTag, planarConfigurationTag, resolutionUnitTag, softwareTag,
      modifyDateTag, artistTag, referenceBlackWhiteTag, exifOffsetTag, gpsInfoTag,
      dateTimeOriginalTag, tiffEPStandardIDTag, jpegFromRawStartTag, jpegFromRawLengthTag,
      yCbCrPositioningTag, unsignedByteType, asciiStringsType, unsignedShortType,
      unsignedLongType, unsignedRationalType]
  · intro htag hfmt
    unfold recTag at htag
    unfold recFmt at hfmt
    simp_all [parseIFDTag, recVo, readBytes, List.range_succ,
      subIFDA100DataOffsetTag, subfileTypeTag, imageWidthTag, imageHeightTag,
      imageFullWidthTag, imageFullHeightTag, bitsPerSampleTag, compressionTag,
      photometricInterpretationTag, makeTag, modelTag, stripOffsetsTag, orientationTag,
      samplesPerPixelTag, rowsPerStripTag, stripByteCountsTag, xResolutionTag,
      yResolutionTag, planarConfigurationTag, resolutionUnitTag, softwareTag,
      modifyDateTag, artistTag, referenceBlackWhiteTag, exifOffsetTag, gpsInfoTag,
      dateTimeOriginalTag, tiffEPStandardIDTag, jpegFromRawStartTag, jpegFromRawLengthTag,
      yCbCrPositioningTag, unsignedByteType, asciiStringsType, unsignedShortType,
      unsignedLongType, unsignedRationalType]
  · intro htag hfmt
    unfold recTag at htag
    unfold recFmt at hfmt
    simp_all [parseIFDTag, recVo, readBytes, List.range_succ,
      subIFDA100DataOffsetTag, subfileTypeTag, imageWidthTag, imageHeightTag,
      imageFullWidthTag, imageFullHeightTag, bitsPerSampleTag, compressionTag,
      photometricInterpretationTag, makeTag, modelTag, stripOffsetsTag, orientationTag,
      samplesPerPixelTag, rowsPerStripTag, stripByteCountsTag, xResolutionTag,
      yResolutionTag, planarConfigurationTag, resolutionUnitTag, softwareTag,
      modifyDateTag, artistTag, referenceBlackWhiteTag, exifOffsetTag, gpsInfoTag,
      dateTimeOriginalTag, tiffEPStandardIDTag, jpegFromRawStartTag, jpegFromRawLengthTag,
      yCbCrPositioningTag, unsignedByteType, asciiStringsType, unsignedShortType,
      unsignedLongType, unsignedRationalType]
  · intro htag hfmt
    unfold recTag at htag
    unfold recFmt at hfmt
    simp_all [parseIFDTag, recVo, readBytes, List.range_succ,
      subIFDA100DataOffsetTag, subfileTypeTag, imageWidthTag, imageHeightTag,
      imageFullWidthTag, imageFullHeightTag, bitsPerSampleTag, compressionTag,
      photometricInterpretationTag, makeTag, modelTag, stripOffsetsTag, orientationTag,
      samplesPerPixelTag, rowsPerStripTag, stripByteCountsTag, xResolutionTag,
      yResolutionTag, planarConfigurationTag, resolutionUnitTag, softwareTag,
      modifyDateTag, artistTag, referenceBlackWhiteTag, exifOffsetTag, gpsInfoTag,
      dateTimeOriginalTag, tiffEPStandardIDTag, jpegFromRawStartTag, jpegFromRawLengthTag,
      yCbCrPositioningTag, unsignedByteType, asciiStringsType, unsignedShortType,
      unsignedLongType, unsignedRationalType]
  · intro htag hfmt
    unfold recTag at htag
    unfold recFmt at hfmt
    simp_all [parseIFDTag, recVo, readBytes, List.range_succ,
      subIFDA100DataOffsetTag, subfileTypeTag, imageWidthTag, imageHeightTag,
      imageFullWidthTag, imageFullHeightTag, bitsPerSampleTag, compressionTag,
      photometricInterpretationTag, makeTag, modelTag, stripOffsetsTag, orientationTag,
      samplesPerPixelTag, rowsPerStripTag, stripByteCountsTag, xResolutionTag,
      yResolutionTag, planarConfigurationTag, resolutionUnitTag, softwareTag,
      modifyDateTag, artistTag, referenceBlackWhiteTag, exifOffsetTag, gpsInfoTag,
      dateTimeOriginalTag, tiffEPStandardIDTag, jpegFromRawStartTag, jpegFromRawLengthTag,
      yCbCrPositioningTag, unsignedByteType, asciiStringsType, unsignedShortType,
      unsignedLongType, unsignedRationalType]
  · intro htag hfmt
    unfold recTag at htag
    unfold recFmt at hfmt
    simp_all [parseIFDTag, recVo, readBytes, List.range_succ,
      subIFDA100DataOffsetTag, subfileTypeTag, imageWidthTag, imageHeightTag,
      imageFullWidthTag, imageFullHeightTag, bitsPerSampleTag, compressionTag,
      photometricInterpretationTag, makeTag, modelTag, stripOffsetsTag, orientationTag,
      samplesPerPixelTag, rowsPerStripTag, stripByteCountsTag, xResolutionTag,
      yResolutionTag, planarConfigurationTag, resolutionUnitTag, softwareTag,
      modifyDateTag, artistTag, referenceBlackWhiteTag, exifOffsetTag, gpsInfoTag,
      dateTimeOriginalTag, tiffEPStandardIDTag, jpegFromRawStartTag, jpegFromRawLengthTag,
      yCbCrPositioningTag, unsignedByteType, asciiStringsType, unsignedShortType,
      unsignedLongType, unsignedRationalType]
  · intro htag hfmt
    unfold recTag at htag
    unfold recFmt at hfmt
    simp_all [parseIFDTag, recVo, readBytes, List.range_succ,
      subIFDA100DataOffsetTag, subfileTypeTag, imageWidthTag, imageHeightTag,
      imageFullWidthTag, imageFullHeightTag, bitsPerSampleTag, compressionTag,
      photometricInterpretationTag, makeTag, modelTag, stripOffsetsTag, orientationTag,
      samplesPerPixelTag, rowsPerStripTag, stripByteCountsTag, xResolutionTag,
      yResolutionTag, planarConfigurationTag, resolutionUnitTag, softwareTag,
      modifyDateTag, artistTag, referenceBlackWhiteTag, exifOffsetTag, gpsInfoTag,
      dateTimeOriginalTag, tiffEPStandardIDTag, jpegFromRawStartTag, jpegFromRawLengthTag,
      yCbCrPositioningTag, unsignedByteType, asciiStringsType, unsignedShortType,
      unsignedLongType, unsignedRationalType]
  · intro htag hfmt
    unfold recTag at htag
    unfold recFmt at hfmt
    simp_all [parseIFDTag, recVo, readBytes, List.range_succ,
      subIFDA100DataOffsetTag, subfileTypeTag, imageWidthTag, imageHeightTag,
      imageFullWidthTag, imageFullHeightTag, bitsPerSampleTag, compressionTag,
      photometricInterpretationTag, makeTag, modelTag, stripOffsetsTag, orientationTag,
      samplesPerPixelTag, rowsPerStripTag, stripByteCountsTag, xResolutionTag,
      yResolutionTag, planarConfigurationTag, resolutionUnitTag, softwareTag,
      modifyDateTag, artistTag, referenceBlackWhiteTag, exifOffsetTag, gpsInfoTag,
      dateTimeOriginalTag, tiffEPStandardIDTag, jpegFromRawStartTag, jpegFromRawLengthTag,
      yCbCrPositioningTag, unsignedByteType, asciiStringsType, unsignedShortType,
      unsignedLongType, unsignedRationalType]
  · intro htag hfmt
    unfold recTag at htag
    unfold recFmt at hfmt
    simp_all [parseIFDTag, recVo, readBytes, List.range_succ,
      subIFDA100DataOffsetTag, subfileTypeTag, imageWidthTag, imageHeightTag,
      imageFullWidthTag, imageFullHeightTag, bitsPerSampleTag, compressionTag,
      photometricInterpretationTag, makeTag, modelTag, stripOffsetsTag, orientationTag,
      samplesPerPixelTag, rowsPerStripTag, stripByteCountsTag, xResolutionTag,
      yResolutionTag, planarConfigurationTag, resolutionUnitTag, softwareTag,
      modifyDateTag, artistTag, referenceBlackWhiteTag, exifOffsetTag, gpsInfoTag,
      dateTimeOriginalTag, tiffEPStandardIDTag, jpegFromRawStartTag, jpegFromRawLengthTag,
      yCbCrPositioningTag, unsignedByteType, asciiStringsType, unsignedShortType,
      unsignedLongType, unsignedRationalType]
  · intro htag hfmt
    unfold recTag at htag
    unfold recFmt at hfmt
    simp_all [parseIFDTag, recVo, readBytes, List.range_succ,
      subIFDA100DataOffsetTag, subfileTypeTag, imageWidthTag, imageHeightTag,
      imageFullWidthTag, imageFullHeightTag, bitsPerSampleTag, compressionTag,
      photometricInterpretationTag, makeTag, modelTag, stripOffsetsTag, orientationTag,
      samplesPerPixelTag, rowsPerStripTag, stripByteCountsTag, xResolutionTag,
      yResolutionTag, planarConfigurationTag, resolutionUnitTag, softwareTag,
      modifyDateTag, artistTag, referenceBlackWhiteTag, exifOffsetTag, gpsInfoTag,
      dateTimeOriginalTag, tiffEPStandardIDTag, jpegFromRawStartTag, jpegFromRawLengthTag,
      yCbCrPositioningTag, unsignedByteType, asciiStringsType, unsignedShortType,
      unsignedLongType, unsignedRationalType]
  · intro htag hfmt
    unfold recTag at htag
    unfold recFmt at hfmt
    simp_all [parseIFDTag, recVo, readBytes, List.range_succ,
      subIFDA100DataOffsetTag, subfileTypeTag, imageWidthTag, imageHeightTag,
      imageFullWidthTag, imageFullHeightTag, bitsPerSampleTag, compressionTag,
      photometricInterpretationTag, makeTag, modelTag, stripOffsetsTag, orientationTag,
      samplesPerPixelTag, rowsPerStripTag, stripByteCountsTag, xResolutionTag,
      yResolutionTag, planarConfigurationTag, resolutionUnitTag, softwareTag,
      modifyDateTag, artistTag, referenceBlackWhiteTag, exifOffsetTag, gpsInfoTag,
      dateTimeOriginalTag, tiffEPStandardIDTag, jpegFromRawStartTag, jpegFromRawLengthTag,
      yCbCrPositioningTag, unsignedByteType, asciiStringsType, unsignedShortType,
      unsignedLongType, unsignedRationalType]
  · intro htag hfmt
    unfold recTag at htag
    unfold recFmt at hfmt
    simp_all [parseIFDTag, recVo, readBytes, List.range_succ,
      subIFDA100DataOffsetTag, subfileTypeTag, imageWidthTag, imageHeightTag,
      imageFullWidthTag, imageFullHeightTag, bitsPerSampleTag, compressionTag,
      photometricInterpretationTag, makeTag, modelTag, stripOffsetsTag, orientationTag,
      samplesPerPixelTag, rowsPerStripTag, stripByteCountsTag, xResolutionTag,
      yResolutionTag, planarConfigurationTag, resolutionUnitTag, softwareTag,
      modifyDateTag, artistTag, referenceBlackWhiteTag, exifOffsetTag, gpsInfoTag,
      dateTimeOriginalTag, tiffEPStandardIDTag, jpegFromRawStartTag, jpegFromRawLengthTag,
      yCbCrPositioningTag, unsignedByteType, asciiStringsType, unsignedShortType,
      unsignedLongType, unsignedRationalType]
  · intro htag hfmt
    unfold recTag at htag
    unfold recFmt at hfmt
    simp_all [parseIFDTag, recVo, readBytes, List.range_succ,
      subIFDA100DataOffsetTag, subfileTypeTag, imageWidthTag, imageHeightTag,
      imageFullWidthTag, imageFullHeightTag, bitsPerSampleTag, compressionTag,
      photometricInterpretationTag, makeTag, modelTag, stripOffsetsTag, orientationTag,
      samplesPerPixelTag, rowsPerStripTag, stripByteCountsTag, xResolutionTag,
      yResolutionTag, planarConfigurationTag, resolutionUnitTag, softwareTag,
      modifyDateTag, artistTag, referenceBlackWhiteTag, exifOffsetTag, gpsInfoTag,
      dateTimeOriginalTag, tiffEPStandardIDTag, jpegFromRawStartTag, jpegFromRawLengthTag,
      yCbCrPositioningTag, unsignedByteType, asciiStringsType, unsignedShortType,
      unsignedLongType, unsignedRationalType]
  · intro htag hfmt
    unfold recTag at htag
    unfold recFmt at hfmt
    simp_all [parseIFDTag, recVo, readBytes, List.range_succ,
      subIFDA100DataOffsetTag, subfileTypeTag, imageWidthTag, imageHeightTag,
      imageFullWidthTag, imageFullHeightTag, bitsPerSampleTag, compressionTag,
      photometricInterpretationTag, makeTag, modelTag, stripOffsetsTag, orientationTag,
      samplesPerPixelTag, rowsPerStripTag, stripByteCountsTag, xResolutionTag,
      yResolutionTag, planarConfigurationTag, resolutionUnitTag, softwareTag,
      modifyDateTag, artistTag, referenceBlackWhiteTag, exifOffsetTag, gpsInfoTag,
      dateTimeOriginalTag, tiffEPStandardIDTag, jpegFromRawStartTag, jpegFromRawLengthTag,
      yCbCrPositioningTag, unsignedByteType, asciiStringsType, unsignedShortType,
      unsignedLongType, unsignedRationalType]
  · intro htag hfmt
    unfold recTag at htag
    unfold recFmt at hfmt
    simp_all [parseIFDTag, recVo, readBytes, List.range_succ,
      subIFDA100DataOffsetTag, subfileTypeTag, imageWidthTag, imageHeightTag,
      imageFullWidthTag, imageFullHeightTag, bitsPerSampleTag, compressionTag,
      photometricInterpretationTag, makeTag, modelTag, stripOffsetsTag, orientationTag,
      samplesPerPixelTag, rowsPerStripTag, stripByteCountsTag, xResolutionTag,
      yResolutionTag, planarConfigurationTag, resolutionUnitTag, softwareTag,
      modifyDateTag, artistTag, referenceBlackWhiteTag, exifOffsetTag, gpsInfoTag,
      dateTimeOriginalTag, tiffEPStandardIDTag, jpegFromRawStartTag, jpegFromRawLengthTag,
      yCbCrPositioningTag, unsignedByteType, asciiStringsType, unsignedShortType,
      unsignedLongType, unsignedRationalType]
  · intro htag hfmt
    unfold recTag at htag
    unfold recFmt at hfmt
    simp_all [parseIFDTag, recVo, readBytes, List.range_succ,
      subIFDA100DataOffsetTag, subfileTypeTag, imageWidthTag, imageHeightTag,
      imageFullWidthTag, imageFullHeightTag, bitsPerSampleTag, compressionTag,
      photometricInterpretationTag, makeTag, modelTag, stripOffsetsTag, orientationTag,
      samplesPerPixelTag, rowsPerStripTag, stripByteCountsTag, xResolutionTag,
      yResolutionTag, planarConfigurationTag, resolutionUnitTag, softwareTag,
      modifyDateTag, artistTag, referenceBlackWhiteTag, exifOffsetTag, gpsInfoTag,
      dateTimeOriginalTag, tiffEPStandardIDTag, jpegFromRawStartTag, jpegFromRawLengthTag,
      yCbCrPositioningTag, unsignedByteType, asciiStringsType, unsignedShortType,
      unsignedLongType, unsignedRationalType]
  · intro htag hfmt hcount
    unfold recTag at htag
    unfold recFmt at hfmt
    unfold recCount at hcount
    simp_all [parseIFDTag, recVo, readBytes, List.range_succ,
      subIFDA100DataOffsetTag, subfileTypeTag, imageWidthTag, imageHeightTag,
      imageFullWidthTag, imageFullHeightTag, bitsPerSampleTag, compressionTag,
      photometricInterpretationTag, makeTag, modelTag, stripOffsetsTag, orientationTag,
      samplesPerPixelTag, rowsPerStripTag, stripByteCountsTag, xResolutionTag,
      yResolutionTag, planarConfigurationTag, resolutionUnitTag, softwareTag,
      modifyDateTag, artistTag, referenceBlackWhiteTag, exifOffsetTag, gpsInfoTag,
      dateTimeOriginalTag, tiffEPStandardIDTag, jpegFromRawStartTag, jpegFromRawLengthTag,
      yCbCrPositioningTag, unsignedByteType, asciiStringsType, unsignedShortType,
      unsignedLongType, unsignedRationalType]
  · intro htag hfmt hn
    unfold recTag at htag
    unfold recFmt at hfmt
    unfold recCount at hn ⊢
    unfold recVo
    simp only [parseIFDTag, Nat.zero_add]
    rw [if_neg (fun hc => absurd (hc.symm.trans htag) (by decide : ¬(subfileTypeTag = subIFDA100DataOffsetTag))),
      if_neg (fun hc => absurd (hc.symm.trans htag) (by decide : ¬(imageWidthTag = subIFDA100DataOffsetTag))),
      if_neg (fun hc => absurd (hc.symm.trans htag) (by decide : ¬(imageHeightTag = subIFDA100DataOffsetTag))),
      if_neg (fun hc => absurd (hc.symm.trans htag) (by decide : ¬(imageFullWidthTag = subIFDA100DataOffsetTag))),
      if_neg (fun hc => absurd (hc.symm.trans htag) (by decide : ¬(imageFullHeightTag = subIFDA100DataOffsetTag))),
      if_neg (fun hc => absurd (hc.symm.trans htag) (by decide : ¬(bitsPerSampleTag = subIFDA100DataOffsetTag))),
      if_neg (fun hc => absurd (hc.symm.trans htag) (by decide : ¬(compressionTag = subIFDA100DataOffsetTag))),
      if_neg (fun hc => absurd (hc.symm.trans htag) (by decide : ¬(photometricInterpretationTag = subIFDA100DataOffsetTag))),
      if_neg (fun hc => absurd (hc.symm.trans htag) (by decide : ¬(makeTag = subIFDA100DataOffsetTag))),
      if_neg (fun hc => absurd (hc.symm.trans htag) (by decide : ¬(modelTag = subIFDA100DataOffsetTag))),
      if_neg (fun hc => absurd (hc.symm.trans htag) (by decide : ¬(stripOffsetsTag = subIFDA100DataOffsetTag))),
      if_neg (fun hc => absurd (hc.symm.trans htag) (by decide : ¬(orientationTag = subIFDA100DataOffsetTag))),
      if_neg (fun hc => absurd (hc.symm.trans htag) (by decide : ¬(samplesPerPixelTag = subIFDA100DataOffsetTag))),
      if_neg (fun hc => absurd (hc.symm.trans htag) (by decide : ¬(rowsPerStripTag = subIFDA100DataOffsetTag))),
      if_neg (fun hc => absurd (hc.symm.trans htag) (by decide : ¬(stripByteCountsTag = subIFDA100DataOffsetTag))),
      if_neg (fun hc => absurd (hc.symm.trans htag) (by decide : ¬(xResolutionTag = subIFDA100DataOffsetTag))),
      if_neg (fun hc => absurd (hc.symm.trans htag) (by decide : ¬(yResolutionTag = subIFDA100DataOffsetTag))),
      if_neg (fun hc => absurd (hc.symm.trans htag) (by decide : ¬(planarConfigurationTag = subIFDA100DataOffsetTag))),
      if_neg (fun hc => absurd (hc.symm.trans htag) (by decide : ¬(resolutionUnitTag = subIFDA100DataOffsetTag))),
      if_neg (fun hc => absurd (hc.symm.trans htag) (by decide : ¬(softwareTag = subIFDA100DataOffsetTag))),
      if_neg (fun hc => absurd (hc.symm.trans htag) (by decide : ¬(modifyDateTag = subIFDA100DataOffsetTag))),
      if_neg (fun hc => absurd (hc.symm.trans htag) (by decide : ¬(artistTag = subIFDA100DataOffsetTag))),
      if_pos htag, if_pos hfmt]
    dsimp only
    set CNT := ConvertBytesToUInt32 (rec.getD 4 0) (rec.getD 5 0) (rec.getD 6 0) (rec.getD 7 0)
      hdr.endianOrder with hCNT
    set VO := ConvertBytesToUInt32 (rec.getD 8 0) (rec.getD 9 0) (rec.getD 10 0) (rec.getD 11 0)
      hdr.endianOrder with hVO
    constructor
    · apply map_congr_range
      intro k hk
      rw [Nat.mod_eq_of_lt hn,
        readBytes_getD file VO (4 * CNT) (4 * k) (by omega),
        readBytes_getD file VO (4 * CNT) (4 * k + 1) (by omega),
        readBytes_getD file VO (4 * CNT) (4 * k + 2) (by omega),
        readBytes_getD file VO (4 * CNT) (4 * k + 3) (by omega)]
    · simp

/-- C4 (witness): the inline image-width and orientation values, the
count-1 Sub-IFD seek, and the general two-element Sub-IFD seek at
concrete records. -/
theorem parseIFD_inline_and_subIFD_seek_witness :
    (parseIFDBytes c4File c4WidthRecord c4Hdr).ImageWidth
      = recVo c4WidthRecord c4Hdr.endianOrder ∧
    (parseIFDBytes c4File c4OrientRecord c4Hdr).OrientationFlag
      = ConvertBytesToUInt16 (c4OrientRecord.getD 8 0) (c4OrientRecord.getD 9 0)
          c4Hdr.endianOrder ∧
    (parseIFDBytes c4File c4Record c4Hdr).SubIFDOffsets =
      [ConvertBytesToUInt32 (readByte c4File (recVo c4Record c4Hdr.endianOrder))
        (readByte c4File (recVo c4Record c4Hdr.endianOrder + 1))
        (readByte c4File (recVo c4Record c4Hdr.endianOrder + 2))
        (readByte c4File (recVo c4Record c4Hdr.endianOrder + 3)) c4Hdr.endianOrder] ∧
    (parseIFDBytes c4File c4Record2 c4Hdr).SubIFDOffsets =
      (List.range (recCount c4Record2 c4Hdr.endianOrder)).map (fun k =>
        ConvertBytesToUInt32 (readByte c4File (recVo c4Record2 c4Hdr.endianOrder + 4 * k))
          (readByte c4File (recVo c4Record2 c4Hdr.endianOrder + (4 * k + 1)))
          (readByte c4File (recVo c4Record2 c4Hdr.endianOrder + (4 * k + 2)))
          (readByte c4File (recVo c4Record2 c4Hdr.endianOrder + (4 * k + 3))) c4Hdr.endianOrder) ∧
    (parseIFDBytes c4File c4Record2 c4Hdr).SubIFDOffsets.length
      = recCount c4Record2 c4Hdr.endianOrder :=
  ⟨(parseIFD_inline_and_subIFD_seek c4File c4WidthRecord c4Hdr rfl).1 rfl rfl,
   (parseIFD_inline_and_subIFD_seek c4File c4OrientRecord c4Hdr rfl).2.2.2.2.2.2.2.2.2.2.2.2.2.2.1 rfl rfl,
   (parseIFD_inline_and_subIFD_seek c4File c4Record c4Hdr rfl).2.2.2.2.2.2.2.2.2.2.2.2.2.2.2.2.2.2.2.1 rfl rfl rfl,
   ((parseIFD_inline_and_subIFD_seek c4File c4Record2 c4Hdr rfl).2.2.2.2.2.2.2.2.2.2.2.2.2.2.2.2.2.2.2.2 rfl rfl (by decide)).1,
   ((parseIFD_inline_and_subIFD_seek c4File c4Record2 c4Hdr rfl).2.2.2.2.2.2.2.2.2.2.2.2.2.2.2.2.2.2.2.2 rfl rfl (by decide)).2⟩

/-- C7 (counterexample): a record for the image-width tag declaring the
16-bit data type 260 — different from the expected `unsignedLongType`
(4) — is not skipped: the decoder compares only the low 8 bits of the
type field, so the width field is set to 7 instead of staying at its
zero default. -/
theorem typeMismatch_truncation_counterexample :
    recTag c7Record .BigEndian = imageWidthTag ∧
    expectedTagType imageWidthTag = some unsignedLongType ∧
    recFmt c7Record .BigEndian = 260 ∧ (260 : Nat) ≠ unsignedLongType ∧
    (parseIFDBytes c7File c7Record c7Hdr).ImageWidth = 7 ∧ (7 : Nat) ≠ 0 :=
  ⟨rfl, rfl, rfl, by decide, rfl, by decide⟩

/-- C7 (amended): a record for a recognized tag whose declared data
type differs from the tag expected type modulo 256 (the decoder
truncates the 16-bit type field to 8 bits before comparing) leaves the
whole IFD unchanged — the corresponding field stays at its default and
every other field is untouched, with no error raised. -/
theorem parseIFDTag_type_mismatch_skips (file : goFile) (ifdData : List Nat) (hdr : tiffHeader)
    (i : Nat) (ifd : tiffIFD) (et : Nat)
    (hreg : expectedTagType (ConvertBytesToUInt16 (ifdData.getD i 0) (ifdData.getD (i + 1) 0)
      hdr.endianOrder) = some et)
    (hfmt : ConvertBytesToUInt16 (ifdData.getD (i + 2) 0) (ifdData.getD (i + 3) 0)
      hdr.endianOrder % 256 ≠ et) :
    parseIFDTag file ifdData hdr i ifd = ifd := by
  simp only [expectedTagType] at hreg
  simp only [parseIFDTag, Nat.add_zero]
  by_cases h1 : ConvertBytesToUInt16 (ifdData.getD i 0) (ifdData.getD (i + 1) 0) hdr.endianOrder = subfileTypeTag
  · rw [if_pos h1] at hreg
    rw [if_pos h1, if_neg (fun hc => hfmt (hc.trans (Option.some.inj hreg)))]
  rw [if_neg h1] at hreg ⊢
  by_cases h2 : ConvertBytesToUInt16 (ifdData.getD i 0) (ifdData.getD (i + 1) 0) hdr.endianOrder = imageWidthTag
  · rw [if_pos h2] at hreg
    rw [if_pos h2, if_neg (fun hc => hfmt (hc.trans (Option.some.inj hreg)))]
  rw [if_neg h2] at hreg ⊢
  by_cases h3 : ConvertBytesToUInt16 (ifdData.getD i 0) (ifdData.getD (i + 1) 0) hdr.endianOrder = imageHeightTag
  · rw [if_pos h3] at hreg
    rw [if_pos h3, if_neg (fun hc => hfmt (hc.trans (Option.some.inj hreg)))]
  rw [if_neg h3] at hreg ⊢
  by_cases h4 : ConvertBytesToUInt16 (ifdData.getD i 0) (ifdData.getD (i + 1) 0) hdr.endianOrder = imageFullWidthTag
  · rw [if_pos h4] at hreg
    rw [if_pos h4, if_neg (fun hc => hfmt (hc.trans (Option.some.inj hreg)))]
  rw [if_neg h4] at hreg ⊢
  by_cases h5 : ConvertBytesToUInt16 (ifdData.getD i 0) (ifdData.getD (i + 1) 0) hdr.endianOrder = imageFullHeightTag
  · rw [if_pos h5] at hreg
    rw [if_pos h5, if_neg (fun hc => hfmt (hc.trans (Option.some.inj hreg)))]
  rw [if_neg h5] at hreg ⊢
  by_cases h6 : ConvertBytesToUInt16 (ifdData.getD i 0) (ifdData.getD (i + 1) 0) hdr.endianOrder = bitsPerSampleTag
  · rw [if_pos h6] at hreg
    rw [if_pos h6, if_neg (fun hc => hfmt (hc.trans (Option.some.inj hreg)))]
  rw [if_neg h6] at hreg ⊢
  by_cases h7 : ConvertBytesToUInt16 (ifdData.getD i 0) (ifdData.getD (i + 1) 0) hdr.endianOrder = compressionTag
  · rw [if_pos h7] at hreg
    rw [if_pos h7, if_neg (fun hc => hfmt (hc.trans (Option.some.inj hreg)))]
  rw [if_neg h7] at hreg ⊢
  by_cases h8 : ConvertBytesToUInt16 (ifdData.getD i 0) (ifdData.getD (i + 1) 0) hdr.endianOrder = photometricInterpretationTag
  · rw [if_pos h8] at hreg
    rw [if_pos h8, if_neg (fun hc => hfmt (hc.trans (Option.some.inj hreg)))]
  rw [if_neg h8] at hreg ⊢
  by_cases h9 : ConvertBytesToUInt16 (ifdData.getD i 0) (ifdData.getD (i + 1) 0) hdr.endianOrder = makeTag
  · rw [if_pos h9] at hreg
    rw [if_pos h9, if_neg (fun hc => hfmt (hc.trans (Option.some.inj hreg)))]
  rw [if_neg h9] at hreg ⊢
  by_cases h10 : ConvertBytesToUInt16 (ifdData.getD i 0) (ifdData.getD (i + 1) 0) hdr.endianOrder = modelTag
  · rw [if_pos h10] at hreg
    rw [if_pos h10, if_neg (fun hc => hfmt (hc.trans (Option.some.inj hreg)))]
  rw [if_neg h10] at hreg ⊢
  by_cases h11 : ConvertBytesToUInt16 (ifdData.getD i 0) (ifdData.getD (i + 1) 0) hdr.endianOrder = stripOffsetsTag
  · rw [if_pos h11] at hreg
    rw [if_pos h11, if_neg (fun hc => hfmt (hc.trans (Option.some.inj hreg)))]
  rw [if_neg h11] at hreg ⊢
  by_cases h12 : ConvertBytesToUInt16 (ifdData.getD i 0) (ifdData.getD (i + 1) 0) hdr.endianOrder = orientationTag
  · rw [if_pos h12] at hreg
    rw [if_pos h12, if_neg (fun hc => hfmt (hc.trans (Option.some.inj hreg)))]
  rw [if_neg h12] at hreg ⊢
  by_cases h13 : ConvertBytesToUInt16 (ifdData.getD i 0) (ifdData.getD (i + 1) 0) hdr.endianOrder = samplesPerPixelTag
  · rw [if_pos h13] at hreg
    rw [if_pos h13, if_neg (fun hc => hfmt (hc.trans (Option.some.inj hreg)))]
  rw [if_neg h13] at hreg ⊢
  by_cases h14 : ConvertBytesToUInt16 (ifdData.getD i 0) (ifdData.getD (i + 1) 0) hdr.endianOrder = rowsPerStripTag
  · rw [if_pos h14] at hreg
    rw [if_pos h14, if_neg (fun hc => hfmt (hc.trans (Option.some.inj hreg)))]
  rw [if_neg h14] at hreg ⊢
  by_cases h15 : ConvertBytesToUInt16 (ifdData.getD i 0) (ifdData.getD (i + 1) 0) hdr.endianOrder = stripByteCountsTag
  · rw [if_pos h15] at hreg
    rw [if_pos h15, if_neg (fun hc => hfmt (hc.trans (Option.some.inj hreg)))]
  rw [if_neg h15] at hreg ⊢
  by_cases h16 : ConvertBytesToUInt16 (ifdData.getD i 0) (ifdData.getD (i + 1) 0) hdr.endianOrder = xResolutionTag
  · rw [if_pos h16] at hreg
    rw [if_pos h16, if_neg (fun hc => hfmt (hc.trans (Option.some.inj hreg)))]
  rw [if_neg h16] at hreg ⊢
  by_cases h17 : ConvertBytesToUInt16 (ifdData.getD i 0) (ifdData.getD (i + 1) 0) hdr.endianOrder = yResolutionTag
  · rw [if_pos h17] at hreg
    rw [if_pos h17, if_neg (fun hc => hfmt (hc.trans (Option.some.inj hreg)))]
  rw [if_neg h17] at hreg ⊢
  by_cases h18 : ConvertBytesToUInt16 (ifdData.getD i 0) (ifdData.getD (i + 1) 0) hdr.endianOrder = planarConfigurationTag
  · rw [if_pos h18] at hreg
    rw [if_pos h18, if_neg (fun hc => hfmt (hc.trans (Option.some.inj hreg)))]
  rw [if_neg h18] at hreg ⊢
  by_cases h19 : ConvertBytesToUInt16 (ifdData.getD i 0) (ifdData.getD (i + 1) 0) hdr.endianOrder = resolutionUnitTag
  · rw [if_pos h19] at hreg
    rw [if_pos h19, if_neg (fun hc => hfmt (hc.trans (Option.some.inj hreg)))]
  rw [if_neg h19] at hreg ⊢
  by_cases h20 : ConvertBytesToUInt16 (ifdData.getD i 0) (ifdData.getD (i + 1) 0) hdr.endianOrder = softwareTag
  · rw [if_pos h20] at hreg
    rw [if_pos h20, if_neg (fun hc => hfmt (hc.trans (Option.some.inj hreg)))]
  rw [if_neg h20] at hreg ⊢
  by_cases h21 : ConvertBytesToUInt16 (ifdData.getD i 0) (ifdData.getD (i + 1) 0) hdr.endianOrder = modifyDateTag
  · rw [if_pos h21] at hreg
    rw [if_pos h21, if_neg (fun hc => hfmt (hc.trans (Option.some.inj hreg)))]
  rw [if_neg h21] at hreg ⊢
  by_cases h22 : ConvertBytesToUInt16 (ifdData.getD i 0) (ifdData.getD (i + 1) 0) hdr.endianOrder = artistTag
  · rw [if_pos h22]
  rw [if_neg h22] at hreg ⊢
  by_cases h23 : ConvertBytesToUInt16 (ifdData.getD i 0) (ifdData.getD (i + 1) 0) hdr.endianOrder = subIFDA100DataOffsetTag
  · rw [if_pos h23] at hreg
    rw [if_pos h23, if_neg (fun hc => hfmt (hc.trans (Option.some.inj hreg)))]
  rw [if_neg h23] at hreg ⊢
  by_cases h24 : ConvertBytesToUInt16 (ifdData.getD i 0) (ifdData.getD (i + 1) 0) hdr.endianOrder = referenceBlackWhiteTag
  · rw [if_pos h24] at hreg
    rw [if_pos h24, if_neg (fun hc => hfmt (hc.trans (Option.some.inj hreg)))]
  rw [if_neg h24] at hreg ⊢
  by_cases h25 : ConvertBytesToUInt16 (ifdData.getD i 0) (ifdData.getD (i + 1) 0) hdr.endianOrder = exifOffsetTag
  · rw [if_pos h25] at hreg
    rw [if_pos h25, if_neg (fun hc => hfmt (hc.trans (Option.some.inj hreg)))]
  rw [if_neg h25] at hreg ⊢
  by_cases h26 : ConvertBytesToUInt16 (ifdData.getD i 0) (ifdData.getD (i + 1) 0) hdr.endianOrder = gpsInfoTag
  · rw [if_pos h26] at hreg
    rw [if_pos h26, if_neg (fun hc => hfmt (hc.trans (Option.some.inj hreg)))]
  rw [if_neg h26] at hreg ⊢
  by_cases h27 : ConvertBytesToUInt16 (ifdData.getD i 0) (ifdData.getD (i + 1) 0) hdr.endianOrder = dateTimeOriginalTag
  · rw [if_pos h27] at hreg
    rw [if_pos h27, if_neg (fun hc => hfmt (hc.trans (Option.some.inj hreg)))]
  rw [if_neg h27] at hreg ⊢
  by_cases h28 : ConvertBytesToUInt16 (ifdData.getD i 0) (ifdData.getD (i + 1) 0) hdr.endianOrder = tiffEPStandardIDTag
  · rw [if_pos h28] at hreg
    rw [if_pos h28, if_neg (fun hc => hfmt (hc.trans (Option.some.inj hreg)))]
  rw [if_neg h28] at hreg ⊢
  by_cases h29 : ConvertBytesToUInt16 (ifdData.getD i 0) (ifdData.getD (i + 1) 0) hdr.endianOrder = jpegFromRawStartTag
  · rw [if_pos h29] at hreg
    rw [if_pos h29, if_neg (fun hc => hfmt (hc.trans (Option.some.inj hreg)))]
  rw [if_neg h29] at hreg ⊢
  by_cases h30 : ConvertBytesToUInt16 (ifdData.getD i 0) (ifdData.getD (i + 1) 0) hdr.endianOrder = jpegFromRawLengthTag
  · rw [if_pos h30] at hreg
    rw [if_pos h30, if_neg (fun hc => hfmt (hc.trans (Option.some.inj hreg)))]
  rw [if_neg h30] at hreg ⊢
  by_cases h31 : ConvertBytesToUInt16 (ifdData.getD i 0) (ifdData.getD (i + 1) 0) hdr.endianOrder = yCbCrPositioningTag
  · rw [if_pos h31] at hreg
    rw [if_pos h31, if_neg (fun hc => hfmt (hc.trans (Option.some.inj hreg)))]
  rw [if_neg h31] at hreg ⊢

/-- C7 (witness): an image-width record declaring `unsignedShortType`
leaves the zero-valued IFD unchanged. -/
theorem parseIFDTag_type_mismatch_skips_witness :
    parseIFDTag c7File c7WitRecord c7Hdr 0 {} = {} :=
  parseIFDTag_type_mismatch_skips c7File c7WitRecord c7Hdr 0 {} unsignedLongType
    (by decide) (by decide)

end Clover
